import Mathlib

/-!
Verification development for the MIMI maternal-health voice assistant
repository.  The definitions below are shallow embeddings of the
TypeScript/JavaScript source:

* risk-tag extraction (`extractRiskData` in `src/lib/gemini.ts` and
  `extractRiskFromText` in `src/components/VoiceInterface.tsx`);
* the rule-based risk engine (`calculateRisk`, `mergeRiskData` in
  `src/lib/riskEngine.ts`);
* the gapless playback scheduler and the Socket.IO session machine
  (`GeminiLiveSession` in `client/src/lib/geminiLive.ts`);
* the WebSocket session variant (`GeminiLiveSession` in the
  direct-WebSocket `geminiLive.ts`);
* the credential-retry loop of `server/services/GeminiLiveBridge.js`.

Strings are modelled as `List Char`.  JavaScript semantics that matter
(leftmost regex match, greedy character classes, `??` defaulting,
`Math.max`/`Math.min`/`Math.round` on non-negative values, promise
resolution latching) are reproduced explicitly.  `JSON.parse` is modelled
on the fragment reachable from the captured group `\x7b[^\x7d]+\x7d`:
flat objects with escape-free string keys and integer values, the exact
shape the system prompt instructs the model to emit; fractional numbers
and string escapes are treated as parse failures.
-/

namespace Mimi

/-- The opening-brace character, written by code point to keep braces out
of string literals. -/
def lbrace : Char := Char.ofNat 123

/-- The closing-brace character. -/
def rbrace : Char := Char.ofNat 125

/-- The literal `[RISK_DATA:` that opens a risk tag in both regexes of
`extractRiskData`. -/
def tagOpen : List Char := "[RISK_DATA:".toList

/-- JavaScript/JSON whitespace relevant to `String.trim` and `JSON.parse`
for the inputs in scope. -/
def isJsWs (c : Char) : Bool := c = ' ' || c = '\t' || c = '\n' || c = '\r'

/-- `text.trim()` on both ends. -/
def trimChars (s : List Char) : List Char :=
  ((s.dropWhile isJsWs).reverse.dropWhile isJsWs).reverse

/-- Strip a literal from the front of a list: `some rest` when `s = p ++ rest`. -/
def dropLead? : List Char → List Char → Option (List Char)
  | [], s => some s
  | _ :: _, [] => none
  | p :: ps, c :: cs => if p = c then dropLead? ps cs else none

/-- Split at the first closing brace: models the greedy `[^\x7d]+`
followed by `\x7d` (the class cannot cross a closing brace, so the run
ends exactly at the first one). -/
def splitAtRBrace? : List Char → Option (List Char × List Char)
  | [] => none
  | c :: cs =>
    if c = rbrace then some ([], cs)
    else
      match splitAtRBrace? cs with
      | some (a, b) => some (c :: a, b)
      | none => none

/-- Split at the first `]`: models the greedy `[^\]]+` followed by `]` in
the removal regex. -/
def splitAtRSquare? : List Char → Option (List Char × List Char)
  | [] => none
  | c :: cs =>
    if c = ']' then some ([], cs)
    else
      match splitAtRSquare? cs with
      | some (a, b) => some (c :: a, b)
      | none => none

/-- Final step of the capture regex: after the non-empty brace-free
content, a closing brace was consumed, and a `]` must follow. -/
def tagClose (content : List Char) : List Char → Option (List Char × List Char)
  | [] => none
  | r :: rest2 =>
    if r = ']' then some (lbrace :: content ++ [rbrace], rest2) else none

/-- Capture-regex continuation after the literal `[RISK_DATA:`: an
opening brace, a non-empty run free of closing braces, the closing
brace, then `]`. -/
def tagAfterOpen : List Char → Option (List Char × List Char)
  | [] => none
  | c :: cs =>
    if c = lbrace then
      (splitAtRBrace? cs).bind fun p => if p.1 = [] then none else tagClose p.1 p.2
    else none

/-- Attempt of the capture regex `\[RISK_DATA:(\x7b[^\x7d]+\x7d)\]` at the
head of the input.  On success returns the captured group (braces
included) and the remainder after the final `]`. -/
def tagMatchAt (s : List Char) : Option (List Char × List Char) :=
  (dropLead? tagOpen s).bind tagAfterOpen

/-- `text.match(/\[RISK_DATA:(\x7b[^\x7d]+\x7d)\]/)`: leftmost match,
returning the captured group. -/
def matchFirst : List Char → Option (List Char)
  | [] => none
  | c :: cs =>
    match tagMatchAt (c :: cs) with
    | some (body, _) => some body
    | none => matchFirst cs

/-- Attempt of the removal regex `\[RISK_DATA:[^\]]+\]` at the head of the
input; on success returns the remainder after the match. -/
def remMatchAt (s : List Char) : Option (List Char) :=
  match dropLead? tagOpen s with
  | none => none
  | some t =>
    match splitAtRSquare? t with
    | none => none
    | some (run, rest) => if run = [] then none else some rest

/-- One pass of `text.replace(/\[RISK_DATA:[^\]]+\]/g, '')`, fuelled by
the input length so the definition stays structurally recursive (every
match consumes at least thirteen characters). -/
def removeTagsAux : Nat → List Char → List Char
  | 0, s => s
  | _ + 1, [] => []
  | fuel + 1, c :: cs =>
    match remMatchAt (c :: cs) with
    | some rest => removeTagsAux fuel rest
    | none => c :: removeTagsAux fuel cs

/-- `text.replace(/\[RISK_DATA:[^\]]+\]/g, '')`. -/
def removeTags (s : List Char) : List Char := removeTagsAux s.length s

/-! JSON fragment parser modelling `JSON.parse` on the captured group:
flat objects with escape-free string keys and integer values. -/

def skipWs (s : List Char) : List Char := s.dropWhile isJsWs

/-- Body of a JSON string after its opening quote; fails on escapes and
control characters. -/
def parseStringBody : List Char → Option (List Char × List Char)
  | [] => none
  | c :: cs =>
    if c = '"' then some ([], cs)
    else if c = '\\' then none
    else if c.toNat < 32 then none
    else
      match parseStringBody cs with
      | some (acc, rest) => some (c :: acc, rest)
      | none => none

/-- A JSON string, quotes included. -/
def parseJsonString : List Char → Option (List Char × List Char)
  | '"' :: cs => parseStringBody cs
  | _ => none

/-- Consume a run of decimal digits, accumulating. -/
def takeDigits (acc : Nat) : List Char → Nat × List Char
  | [] => (acc, [])
  | c :: cs => if c.isDigit then takeDigits (acc * 10 + (c.toNat - 48)) cs else (acc, c :: cs)

/-- A JSON natural: `0` or a nonzero digit followed by digits (leading
zeros are rejected, as in JSON). -/
def parseNat? : List Char → Option (Nat × List Char)
  | [] => none
  | '0' :: cs => some (0, cs)
  | c :: cs => if c.isDigit then some (takeDigits (c.toNat - 48) cs) else none

/-- A JSON integer with optional minus sign. -/
def parseInt? : List Char → Option (Int × List Char)
  | '-' :: cs => (parseNat? cs).map fun p => (-(p.1 : Int), p.2)
  | s => (parseNat? s).map fun p => ((p.1 : Int), p.2)

/-- One `"key": value` member, surrounding whitespace included. -/
def parseMember (s : List Char) : Option ((List Char × Int) × List Char) :=
  match parseJsonString (skipWs s) with
  | none => none
  | some (key, r1) =>
    match skipWs r1 with
    | ':' :: r2 =>
      match parseInt? (skipWs r2) with
      | none => none
      | some (v, r3) => some ((key, v), r3)
    | _ => none

/-- Members after the opening brace: comma-separated, ending at the
closing brace, which must end the input (as `JSON.parse` rejects
trailing characters). -/
def parseMembersAux : Nat → List (List Char × Int) → List Char → Option (List (List Char × Int))
  | 0, _, _ => none
  | fuel + 1, acc, s =>
    match parseMember s with
    | none => none
    | some (kv, rest) =>
      match skipWs rest with
      | c :: rs =>
        if c = ',' then parseMembersAux fuel (acc ++ [kv]) rs
        else if c = rbrace then (if rs = [] then some (acc ++ [kv]) else none)
        else none
      | [] => none

/-- `JSON.parse` on the captured group, as an ordered key-value list. -/
def parseJsonObject (s : List Char) : Option (List (List Char × Int)) :=
  match s with
  | [] => none
  | c :: rest =>
    if c = lbrace then
      match skipWs rest with
      | d :: rs =>
        if d = rbrace then (if rs = [] then some [] else none)
        else parseMembersAux (s.length + 1) [] rest
      | [] => none
    else none

/-- `extractRiskData` from `src/lib/gemini.ts` (identical to
`extractRiskFromText` in `VoiceInterface.tsx`): match the capture regex;
no match returns the text unchanged with a null record; otherwise the
cleaned text is the global removal-regex replacement, trimmed, and the
record is the parse of the captured group when it succeeds. -/
def extractRiskData (text : List Char) :
    List Char × Option (List (List Char × Int)) :=
  match matchFirst text with
  | none => (text, none)
  | some body =>
    match parseJsonObject body with
    | some r => (trimChars (removeTags text), some r)
    | none => (trimChars (removeTags text), none)

/-- The full text of a risk tag with the given body. -/
def mkTag (body : List Char) : List Char := tagOpen ++ body ++ [']']

/-- A body matched by the capture regex: braces around a non-empty run of
characters free of closing braces. -/
def IsTagBody (body : List Char) : Prop :=
  ∃ content, body = lbrace :: content ++ [rbrace] ∧ content ≠ [] ∧ rbrace ∉ content

/-- The text contains a capture-regex tag somewhere. -/
def HasTag (s : List Char) : Prop :=
  ∃ pre body post, IsTagBody body ∧ s = pre ++ mkTag body ++ post

/-- The given decomposition exhibits the leftmost capture-regex tag. -/
def FirstTag (s pre body post : List Char) : Prop :=
  IsTagBody body ∧ s = pre ++ mkTag body ++ post ∧
    ∀ pre₂ body₂ post₂, IsTagBody body₂ → s = pre₂ ++ mkTag body₂ ++ post₂ →
      pre.length ≤ pre₂.length

/-! Rule-based risk engine, from `src/lib/riskEngine.ts`. -/

/-- `Partial<RiskData>`: every symptom field may be absent.  The claims
quantify over records with non-negative integer severities, so fields
are modelled as optional naturals. -/
structure RiskDataOpt where
  headache : Option Nat
  blurredVision : Option Nat
  swelling : Option Nat
  highBP : Option Nat
  bleeding : Option Nat
  fever : Option Nat
  reducedMovement : Option Nat
  daysPregnant : Option Nat
deriving DecidableEq, Repr

inductive FlagSeverity
  | warning
  | danger
  | critical
deriving DecidableEq, Repr

structure RiskFlag where
  name : String
  severity : FlagSeverity
  description : String
deriving DecidableEq, Repr

inductive RiskLevel
  | low
  | medium
  | high
  | critical
deriving DecidableEq, Repr

structure StoredRiskHistory where
  previousHighRisk : Bool
deriving DecidableEq, Repr

structure RiskAssessment where
  score : Int
  level : RiskLevel
  flags : List RiskFlag
  recommendation : String
  requiresAlert : Bool
deriving DecidableEq, Repr

/-- Rule 1: severe headache. -/
def rule1 (o : Option Nat) (p : ℚ × List RiskFlag) : ℚ × List RiskFlag :=
  match o with
  | none => p
  | some h =>
    if 3 ≤ h then
      (p.1 + 25, p.2 ++ [⟨"Severe Headache", .danger,
        "Severe persistent headache is a key pre-eclampsia warning sign"⟩])
    else if h = 2 then
      (p.1 + 15, p.2 ++ [⟨"Moderate Headache", .warning,
        "Recurring headache requires monitoring"⟩])
    else if h = 1 then (p.1 + 5, p.2)
    else p

/-- Rule 2: blurred vision. -/
def rule2 (o : Option Nat) (p : ℚ × List RiskFlag) : ℚ × List RiskFlag :=
  match o with
  | none => p
  | some v =>
    if 0 < v then
      (p.1 + 30, p.2 ++ [⟨"Blurred Vision / Seeing Spots", .critical,
        "Visual disturbances indicate possible eclampsia — URGENT care needed"⟩])
    else p

/-- Rule 3: swelling. -/
def rule3 (o : Option Nat) (p : ℚ × List RiskFlag) : ℚ × List RiskFlag :=
  match o with
  | none => p
  | some sw =>
    if 2 ≤ sw then
      (p.1 + 20, p.2 ++ [⟨"Significant Swelling", .danger,
        "Swelling of face/hands/feet is a pre-eclampsia warning sign"⟩])
    else if sw = 1 then
      (p.1 + 8, p.2 ++ [⟨"Mild Swelling", .warning,
        "Monitor swelling — report if it worsens"⟩])
    else p

/-- Rule 4: high blood pressure. -/
def rule4 (o : Option Nat) (p : ℚ × List RiskFlag) : ℚ × List RiskFlag :=
  match o with
  | none => p
  | some b =>
    if 0 < b then
      (p.1 + 25, p.2 ++ [⟨"High Blood Pressure", .danger,
        "Hypertension in pregnancy requires immediate medical attention"⟩])
    else p

/-- Rule 5: vaginal bleeding. -/
def rule5 (o : Option Nat) (p : ℚ × List RiskFlag) : ℚ × List RiskFlag :=
  match o with
  | none => p
  | some b =>
    if 0 < b then
      (p.1 + 40, p.2 ++ [⟨"Vaginal Bleeding", .critical,
        "Any vaginal bleeding requires immediate emergency care"⟩])
    else p

/-- Rule 6: fever. -/
def rule6 (o : Option Nat) (p : ℚ × List RiskFlag) : ℚ × List RiskFlag :=
  match o with
  | none => p
  | some f =>
    if 0 < f then
      (p.1 + 15, p.2 ++ [⟨"Fever", .warning,
        "Fever during pregnancy can indicate infection"⟩])
    else p

/-- Rule 7: reduced fetal movement. -/
def rule7 (o : Option Nat) (p : ℚ × List RiskFlag) : ℚ × List RiskFlag :=
  match o with
  | none => p
  | some m =>
    if 0 < m then
      (p.1 + 25, p.2 ++ [⟨"Reduced Baby Movement", .danger,
        "Decreased fetal movement may indicate fetal distress"⟩])
    else p

/-- Rule 8: combined pre-eclampsia triad (`?? 0` defaults for the three
fields). -/
def rule8 (rd : RiskDataOpt) (p : ℚ × List RiskFlag) : ℚ × List RiskFlag :=
  if 2 ≤ rd.headache.getD 0 ∧ 1 ≤ rd.swelling.getD 0 ∧ 0 < rd.highBP.getD 0 then
    (p.1 + 20, p.2 ++ [⟨"Pre-Eclampsia Pattern Detected", .critical,
      "The combination of headache, swelling, and high BP strongly suggests pre-eclampsia"⟩])
  else p

/-- Rules 1-8 in source order, from a zero score and no flags. -/
def rulesScoreFlags (rd : RiskDataOpt) : ℚ × List RiskFlag :=
  rule8 rd (rule7 rd.reducedMovement (rule6 rd.fever (rule5 rd.bleeding
    (rule4 rd.highBP (rule3 rd.swelling (rule2 rd.blurredVision
      (rule1 rd.headache (0, []))))))))

/-- Rule 9: repeat-high-risk amplifier `min(score * 1.2, 100)`. -/
def applyHistory (hist : Option StoredRiskHistory) (q : ℚ) : ℚ :=
  match hist with
  | none => q
  | some h => if h.previousHighRisk then min (q * (6 / 5)) 100 else q

/-- Rule 10: late-gestation amplifier.  JavaScript truthiness makes
`daysPregnant && daysPregnant >= 196` require a present, non-zero value. -/
def applyGestation (rd : RiskDataOpt) (q : ℚ) : ℚ :=
  match rd.daysPregnant with
  | none => q
  | some d =>
    if d ≠ 0 ∧ 196 ≤ d then (if 20 < q then min (q * (23 / 20)) 100 else q) else q

/-- `Math.round` for the non-negative scores that occur here. -/
def jsRound (q : ℚ) : Int := Int.floor (q + 1 / 2)

/-- `calculateRisk` from `src/lib/riskEngine.ts`. -/
def calculateRisk (rd : RiskDataOpt) (hist : Option StoredRiskHistory) :
    RiskAssessment :=
  let p := rulesScoreFlags rd
  let q := applyGestation rd (applyHistory hist p.1)
  let score : Int := min (jsRound q) 100
  let hasCrit : Bool := p.2.any fun f => f.severity == .critical
  if 70 ≤ score ∨ hasCrit = true then
    { score := score, level := .critical, flags := p.2,
      recommendation := "Please go to the hospital immediately. Your symptoms are very serious. A CHEW worker is being notified now.",
      requiresAlert := true }
  else if 45 ≤ score then
    { score := score, level := .high, flags := p.2,
      recommendation := "Your symptoms are concerning. Please visit a health facility today and contact your CHEW worker.",
      requiresAlert := true }
  else if 20 ≤ score then
    { score := score, level := .medium, flags := p.2,
      recommendation := "Monitor your symptoms closely. If they worsen, please contact your CHEW worker.",
      requiresAlert := false }
  else
    { score := score, level := .low, flags := p.2,
      recommendation := "You are doing well! Keep taking your supplements and attend your antenatal appointments.",
      requiresAlert := false }

/-- `mergeRiskData` from `src/lib/riskEngine.ts`: pointwise `Math.max`
with `?? 0` defaults on the seven symptom fields, and
`incoming.daysPregnant ?? existing.daysPregnant ?? 0`. -/
def mergeRiskData (existing incoming : RiskDataOpt) : RiskDataOpt :=
  { headache := some (max (existing.headache.getD 0) (incoming.headache.getD 0)),
    blurredVision := some (max (existing.blurredVision.getD 0) (incoming.blurredVision.getD 0)),
    swelling := some (max (existing.swelling.getD 0) (incoming.swelling.getD 0)),
    highBP := some (max (existing.highBP.getD 0) (incoming.highBP.getD 0)),
    bleeding := some (max (existing.bleeding.getD 0) (incoming.bleeding.getD 0)),
    fever := some (max (existing.fever.getD 0) (incoming.fever.getD 0)),
    reducedMovement := some (max (existing.reducedMovement.getD 0) (incoming.reducedMovement.getD 0)),
    daysPregnant := some (incoming.daysPregnant.getD (existing.daysPregnant.getD 0)) }

/-! Gapless playback scheduler, from `GeminiLiveSession` in
`client/src/lib/geminiLive.ts`.  Audio-clock times and durations are
rationals (seconds); scheduled `AudioBufferSourceNode`s are tracked by a
fresh numeric id. -/

/-- `BUFFER_LOOKAHEAD = 0.2`. -/
def BUFFER_LOOKAHEAD : ℚ := 1 / 5

structure Sched where
  nextPlayTime : ℚ
  scheduled : List Nat
  nextId : Nat
  stopped : List Nat
deriving DecidableEq, Repr

def initSched : Sched := ⟨0, [], 0, []⟩

/-- `scheduleAudioPlayback`: initialise the timeline on the first chunk,
resynchronise when behind the clock, schedule at `nextPlayTime`, then
advance the cursor by the buffer duration.  Returns the new state and
the scheduled start time. -/
def scheduleAudioPlayback (st : Sched) (currentTime dur : ℚ) : Sched × ℚ :=
  let npt1 := if st.nextPlayTime = 0 then currentTime + BUFFER_LOOKAHEAD else st.nextPlayTime
  let npt2 := if npt1 < currentTime then currentTime + BUFFER_LOOKAHEAD else npt1
  ({ nextPlayTime := npt2 + dur,
     scheduled := st.scheduled ++ [st.nextId],
     nextId := st.nextId + 1,
     stopped := st.stopped }, npt2)

/-- `stopAllAudio`: stop and forget every scheduled source and reset the
timeline cursor. -/
def stopAllAudio (st : Sched) : Sched :=
  { nextPlayTime := 0, scheduled := [], nextId := st.nextId,
    stopped := st.stopped ++ st.scheduled }

/-- Run the scheduler over a list of `(currentTime, duration)` frames,
collecting the scheduled start times in arrival order. -/
def runSched : Sched → List (ℚ × ℚ) → Sched × List ℚ
  | st, [] => (st, [])
  | st, f :: fs =>
    let p := scheduleAudioPlayback st f.1 f.2
    let r := runSched p.1 fs
    (r.1, p.2 :: r.2)

/-- Specification of a run of the scheduler after the first frame: each
start is at or after the previous end, any gap is exactly a
resynchronisation to `currentTime + BUFFER_LOOKAHEAD` triggered by the
cursor having fallen behind, and the cursor always ends at the last
start plus that frame's duration. -/
def StartsSpec : ℚ → List (ℚ × ℚ) → List ℚ → ℚ → Prop
  | prevEnd, [], starts, finalNpt => starts = [] ∧ finalNpt = prevEnd
  | prevEnd, f :: fs, starts, finalNpt =>
    ∃ s rest, starts = s :: rest ∧
      prevEnd ≤ s ∧
      (s = prevEnd ∨ (prevEnd < f.1 ∧ s = f.1 + BUFFER_LOOKAHEAD)) ∧
      StartsSpec (s + f.2) fs rest finalNpt

/-! Socket.IO session machine, from `GeminiLiveSession` in
`client/src/lib/geminiLive.ts`.  The `connect()` handlers and the
`disconnect()` method are modelled as transitions on an explicit state;
callback invocations are logged. -/

inductive LiveSessionStatus
  | disconnected
  | connecting
  | connected
  | error
deriving DecidableEq, Repr

structure ClientState where
  status : LiveSessionStatus
  /-- `this.socket !== null`. -/
  socketExists : Bool
  /-- `socket.disconnect()` has been called on the current socket. -/
  socketClosed : Bool
  intentionalDisconnect : Bool
  /-- The 20-second connect timer has neither fired nor been cleared. -/
  timeoutPending : Bool
  /-- Latched resolution of the `connect()` promise. -/
  resolved : Option Bool
  /-- `onStatusChange` invocations, in order. -/
  statusCbs : List LiveSessionStatus
  /-- Number of `onError` invocations. -/
  errorCbs : Nat
  audio : Sched
  /-- Start times scheduled by the `audio-output` handler, in order. -/
  starts : List ℚ
deriving DecidableEq, Repr

/-- `setStatus`: store the status and always invoke `onStatusChange`. -/
def setStatus (s : LiveSessionStatus) (st : ClientState) : ClientState :=
  { st with status := s, statusCbs := st.statusCbs ++ [s] }

/-- Promise resolution latches the first value. -/
def resolveWith (b : Bool) (st : ClientState) : ClientState :=
  { st with resolved := match st.resolved with | none => some b | some x => some x }

/-- A fresh, never-connected session. -/
def initClientState : ClientState :=
  { status := .disconnected, socketExists := false, socketClosed := false,
    intentionalDisconnect := false, timeoutPending := false, resolved := none,
    statusCbs := [], errorCbs := 0, audio := initSched, starts := [] }

/-- The synchronous prefix of `connect()`: clear the intentional flag,
set status `connecting`, create the socket and arm the 20-second timer. -/
def connectInit (st : ClientState) : ClientState :=
  { setStatus .connecting { st with intentionalDisconnect := false } with
    socketExists := true, socketClosed := false,
    timeoutPending := true, resolved := none }

/-- Events delivered to the handlers registered by `connect()`. -/
inductive SockEvent
  /-- The 20-second connect timer fires. -/
  | timeoutFire
  /-- A `status` message; `isError` when the message contains `error`,
  `isReady` when `status === 'connected'` or it contains `ready`. -/
  | statusMsg (isError isReady : Bool)
  | connectError
  | socketDisconnect
  | audioOutput (ct d : ℚ)
  | interrupted
  | turnComplete
deriving DecidableEq

/-- The handler bodies from `connect()`, one case per registered event. -/
def handleEvent (st : ClientState) : SockEvent → ClientState
  | .timeoutFire =>
    if st.timeoutPending then
      resolveWith false (setStatus .error
        { st with errorCbs := st.errorCbs + 1, timeoutPending := false })
    else st
  | .statusMsg isError isReady =>
    if isError then
      resolveWith false (setStatus .error
        { st with errorCbs := st.errorCbs + 1, timeoutPending := false })
    else if isReady then
      resolveWith true (setStatus .connected { st with timeoutPending := false })
    else st
  | .connectError =>
    if st.intentionalDisconnect then
      resolveWith false { st with timeoutPending := false }
    else
      resolveWith false (setStatus .error
        { st with errorCbs := st.errorCbs + 1, timeoutPending := false })
  | .socketDisconnect =>
    if st.intentionalDisconnect then st
    else setStatus .disconnected { st with errorCbs := st.errorCbs + 1 }
  | .audioOutput ct d =>
    let p := scheduleAudioPlayback st.audio ct d
    { st with audio := p.1, starts := st.starts ++ [p.2] }
  | .interrupted => { st with audio := stopAllAudio st.audio }
  | .turnComplete => st

/-- `disconnect()`: set the intentional flag, close and drop the socket,
stop playback, then `setStatus('disconnected')`. -/
def disconnect (st : ClientState) : ClientState :=
  setStatus .disconnected
    { st with intentionalDisconnect := true,
              socketClosed := st.socketExists || st.socketClosed,
              socketExists := false,
              audio := stopAllAudio st.audio }

/-- The transport is half-open: a socket object exists and has not been
closed. -/
def channelOpen (st : ClientState) : Prop :=
  st.socketExists = true ∧ st.socketClosed = false

/-! `PCMCapturer` from `client/src/lib/geminiLive.ts`: `stop()` nulls out
every resource through optional chaining. -/

structure PCMCapturer where
  audioContextLive : Bool
  mediaStreamLive : Bool
  processorLive : Bool
  sourceNodeLive : Bool
deriving DecidableEq, Repr

def PCMCapturer.stop (_ : PCMCapturer) : PCMCapturer :=
  { audioContextLive := false, mediaStreamLive := false,
    processorLive := false, sourceNodeLive := false }

/-! Direct-WebSocket session variant, from the `GeminiLiveSession` of the
browser-WebSocket `geminiLive.ts`: `onopen` sends the setup message; a
`setupComplete` server message only flips the `setupSent` flag and the
status, it never resends the setup. -/

structure WsState where
  wsOpen : Bool
  setupSent : Bool
  status : LiveSessionStatus
  setupMsgsSent : Nat
  statusCbs : List LiveSessionStatus
deriving DecidableEq, Repr

def initWsState : WsState :=
  { wsOpen := false, setupSent := false, status := .connecting,
    setupMsgsSent := 0, statusCbs := [] }

inductive WsEvent
  /-- The WebSocket `onopen` callback. -/
  | openEv
  /-- A server message with `setupComplete`. -/
  | msgSetupComplete
  /-- Any other server message. -/
  | msgOther
deriving DecidableEq

/-- Handlers of the WebSocket variant.  `onopen` calls `sendSetup`,
whose `send` goes through because the socket is open; the
`setupComplete` branch of `handleMessage` only sets the flag and the
status. -/
def handleWs (st : WsState) : WsEvent → WsState
  | .openEv =>
    let st1 := { st with wsOpen := true }
    if st1.wsOpen then { st1 with setupMsgsSent := st1.setupMsgsSent + 1 } else st1
  | .msgSetupComplete =>
    if st.setupSent then st
    else
      { st with setupSent := true, status := .connected,
                statusCbs := st.statusCbs ++ [.connected] }
  | .msgOther => st

def runWs (st : WsState) (events : List WsEvent) : WsState :=
  events.foldl handleWs st

/-! Credential retry of `server/services/GeminiLiveBridge.js`:
`connect()` tries `authTokens.create` up to three times with a fixed
one-second backoff, then opens the upstream Live session; any error
reaching the outer catch is emitted to the client as an error status. -/

structure BridgeResult where
  attempts : Nat
  /-- Backoff sleeps actually performed, in milliseconds. -/
  sleepsMs : List Nat
  sessionEstablished : Bool
  errorEmitted : Bool
deriving DecidableEq, Repr

/-- The `while (retries > 0 && !tokenResult)` loop; `outcomes k` tells
whether the `(k+1)`-th token attempt succeeds.  Returns attempts made,
sleeps performed, and whether a token was obtained. -/
def tokenRetry (outcomes : Nat → Bool) : Nat → Nat → List Nat → Nat × List Nat × Bool
  | 0, k, sleeps => (k, sleeps, false)
  | r + 1, k, sleeps =>
    if outcomes k then (k + 1, sleeps, true)
    else if 0 < r then tokenRetry outcomes r (k + 1) (sleeps ++ [1000])
    else (k + 1, sleeps, false)

/-- `GeminiLiveBridge.connect()` observable outcome: token retry, then
the upstream `live.connect` (whose own success is the `liveOk`
parameter); a failure anywhere lands in the outer catch, which emits an
error status and leaves `this.session` unset. -/
def bridgeConnect (outcomes : Nat → Bool) (liveOk : Bool) : BridgeResult :=
  let r := tokenRetry outcomes 3 0 []
  if r.2.2 then
    if liveOk then
      { attempts := r.1, sleepsMs := r.2.1, sessionEstablished := true,
        errorEmitted := false }
    else
      { attempts := r.1, sleepsMs := r.2.1, sessionEstablished := false,
        errorEmitted := true }
  else
    { attempts := r.1, sleepsMs := r.2.1, sessionEstablished := false,
      errorEmitted := true }

/-- A parseable tag body: the text of the JSON object `\x7b"h":1\x7d`. -/
def c1Body : List Char := lbrace :: "\"h\":1".toList ++ [rbrace]

/-- Sample input holding a brace-less pseudo-tag `[RISK_DATA:hello]`
followed by one proper tag. -/
def c1Ex : List Char := "a[RISK_DATA:hello]b".toList ++ mkTag c1Body ++ "c".toList

/-! Theorems. -/

/-- Claim C10 — merge is a pointwise maximum: each of the seven symptom
fields of `mergeRiskData existing incoming` is the maximum of the two
inputs' values with missing fields read as zero; on those fields the
merge is commutative, idempotent (merging a record with itself keeps its
defaulted values), and monotone (dominates both inputs); `daysPregnant`
takes the incoming value when present, else the existing one, else 0. -/
theorem c10_merge_pointwise_max (x y : RiskDataOpt) :
    ((mergeRiskData x y).headache = some (max (x.headache.getD 0) (y.headache.getD 0)) ∧
     (mergeRiskData x y).blurredVision = some (max (x.blurredVision.getD 0) (y.blurredVision.getD 0)) ∧
     (mergeRiskData x y).swelling = some (max (x.swelling.getD 0) (y.swelling.getD 0)) ∧
     (mergeRiskData x y).highBP = some (max (x.highBP.getD 0) (y.highBP.getD 0)) ∧
     (mergeRiskData x y).bleeding = some (max (x.bleeding.getD 0) (y.bleeding.getD 0)) ∧
     (mergeRiskData x y).fever = some (max (x.fever.getD 0) (y.fever.getD 0)) ∧
     (mergeRiskData x y).reducedMovement = some (max (x.reducedMovement.getD 0) (y.reducedMovement.getD 0))) ∧
    (mergeRiskData x y).daysPregnant = some (y.daysPregnant.getD (x.daysPregnant.getD 0)) ∧
    ((mergeRiskData x y).headache = (mergeRiskData y x).headache ∧
     (mergeRiskData x y).blurredVision = (mergeRiskData y x).blurredVision ∧
     (mergeRiskData x y).swelling = (mergeRiskData y x).swelling ∧
     (mergeRiskData x y).highBP = (mergeRiskData y x).highBP ∧
     (mergeRiskData x y).bleeding = (mergeRiskData y x).bleeding ∧
     (mergeRiskData x y).fever = (mergeRiskData y x).fever ∧
     (mergeRiskData x y).reducedMovement = (mergeRiskData y x).reducedMovement) ∧
    ((mergeRiskData x x).headache = some (x.headache.getD 0) ∧
     (mergeRiskData x x).blurredVision = some (x.blurredVision.getD 0) ∧
     (mergeRiskData x x).swelling = some (x.swelling.getD 0) ∧
     (mergeRiskData x x).highBP = some (x.highBP.getD 0) ∧
     (mergeRiskData x x).bleeding = some (x.bleeding.getD 0) ∧
     (mergeRiskData x x).fever = some (x.fever.getD 0) ∧
     (mergeRiskData x x).reducedMovement = some (x.reducedMovement.getD 0)) ∧
    ((x.headache.getD 0 ≤ (mergeRiskData x y).headache.getD 0 ∧
      y.headache.getD 0 ≤ (mergeRiskData x y).headache.getD 0) ∧
     (x.blurredVision.getD 0 ≤ (mergeRiskData x y).blurredVision.getD 0 ∧
      y.blurredVision.getD 0 ≤ (mergeRiskData x y).blurredVision.getD 0) ∧
     (x.swelling.getD 0 ≤ (mergeRiskData x y).swelling.getD 0 ∧
      y.swelling.getD 0 ≤ (mergeRiskData x y).swelling.getD 0) ∧
     (x.highBP.getD 0 ≤ (mergeRiskData x y).highBP.getD 0 ∧
      y.highBP.getD 0 ≤ (mergeRiskData x y).highBP.getD 0) ∧
     (x.bleeding.getD 0 ≤ (mergeRiskData x y).bleeding.getD 0 ∧
      y.bleeding.getD 0 ≤ (mergeRiskData x y).bleeding.getD 0) ∧
     (x.fever.getD 0 ≤ (mergeRiskData x y).fever.getD 0 ∧
      y.fever.getD 0 ≤ (mergeRiskData x y).fever.getD 0) ∧
     (x.reducedMovement.getD 0 ≤ (mergeRiskData x y).reducedMovement.getD 0 ∧
      y.reducedMovement.getD 0 ≤ (mergeRiskData x y).reducedMovement.getD 0)) := by
  refine ⟨⟨rfl, rfl, rfl, rfl, rfl, rfl, rfl⟩, rfl, ?_, ?_, ?_⟩ <;>
    simp [mergeRiskData, Nat.max_comm, Nat.max_self, Nat.le_max_left, Nat.le_max_right]

theorem rule1_le (o : Option Nat) (p : ℚ × List RiskFlag) : p.1 ≤ (rule1 o p).1 := by
  cases o with
  | none => exact le_refl _
  | some h => simp only [rule1]; split_ifs <;> simp

theorem rule2_le (o : Option Nat) (p : ℚ × List RiskFlag) : p.1 ≤ (rule2 o p).1 := by
  cases o with
  | none => exact le_refl _
  | some v => simp only [rule2]; split_ifs <;> simp

theorem rule3_le (o : Option Nat) (p : ℚ × List RiskFlag) : p.1 ≤ (rule3 o p).1 := by
  cases o with
  | none => exact le_refl _
  | some v => simp only [rule3]; split_ifs <;> simp

theorem rule4_le (o : Option Nat) (p : ℚ × List RiskFlag) : p.1 ≤ (rule4 o p).1 := by
  cases o with
  | none => exact le_refl _
  | some v => simp only [rule4]; split_ifs <;> simp

theorem rule5_le (o : Option Nat) (p : ℚ × List RiskFlag) : p.1 ≤ (rule5 o p).1 := by
  cases o with
  | none => exact le_refl _
  | some v => simp only [rule5]; split_ifs <;> simp

theorem rule6_le (o : Option Nat) (p : ℚ × List RiskFlag) : p.1 ≤ (rule6 o p).1 := by
  cases o with
  | none => exact le_refl _
  | some v => simp only [rule6]; split_ifs <;> simp

theorem rule7_le (o : Option Nat) (p : ℚ × List RiskFlag) : p.1 ≤ (rule7 o p).1 := by
  cases o with
  | none => exact le_refl _
  | some v => simp only [rule7]; split_ifs <;> simp

theorem rule8_le (rd : RiskDataOpt) (p : ℚ × List RiskFlag) : p.1 ≤ (rule8 rd p).1 := by
  simp only [rule8]; split_ifs <;> simp

theorem rulesScoreFlags_nonneg (rd : RiskDataOpt) : 0 ≤ (rulesScoreFlags rd).1 := by
  have h1 := rule1_le rd.headache ((0 : ℚ), ([] : List RiskFlag))
  have h2 := rule2_le rd.blurredVision (rule1 rd.headache ((0 : ℚ), ([] : List RiskFlag)))
  have h3 := rule3_le rd.swelling (rule2 rd.blurredVision (rule1 rd.headache
    ((0 : ℚ), ([] : List RiskFlag))))
  have h4 := rule4_le rd.highBP (rule3 rd.swelling (rule2 rd.blurredVision (rule1 rd.headache
    ((0 : ℚ), ([] : List RiskFlag)))))
  have h5 := rule5_le rd.bleeding (rule4 rd.highBP (rule3 rd.swelling (rule2 rd.blurredVision
    (rule1 rd.headache ((0 : ℚ), ([] : List RiskFlag))))))
  have h6 := rule6_le rd.fever (rule5 rd.bleeding (rule4 rd.highBP (rule3 rd.swelling
    (rule2 rd.blurredVision (rule1 rd.headache ((0 : ℚ), ([] : List RiskFlag)))))))
  have h7 := rule7_le rd.reducedMovement (rule6 rd.fever (rule5 rd.bleeding (rule4 rd.highBP
    (rule3 rd.swelling (rule2 rd.blurredVision (rule1 rd.headache
      ((0 : ℚ), ([] : List RiskFlag))))))))
  have h8 := rule8_le rd (rule7 rd.reducedMovement (rule6 rd.fever (rule5 rd.bleeding
    (rule4 rd.highBP (rule3 rd.swelling (rule2 rd.blurredVision (rule1 rd.headache
      ((0 : ℚ), ([] : List RiskFlag)))))))))
  have h0 : (((0 : ℚ), ([] : List RiskFlag))).1 = 0 := rfl
  simp only [rulesScoreFlags]
  linarith

theorem applyHistory_nonneg (hist : Option StoredRiskHistory) (q : ℚ) (hq : 0 ≤ q) :
    0 ≤ applyHistory hist q := by
  cases hist with
  | none => exact hq
  | some h =>
    simp only [applyHistory]
    split_ifs
    · exact le_min (mul_nonneg hq (by norm_num)) (by norm_num)
    · exact hq

theorem applyGestation_nonneg (rd : RiskDataOpt) (q : ℚ) (hq : 0 ≤ q) :
    0 ≤ applyGestation rd q := by
  cases hdp : rd.daysPregnant with
  | none => simpa [applyGestation, hdp] using hq
  | some d =>
    simp only [applyGestation, hdp]
    split_ifs
    · exact le_min (mul_nonneg hq (by norm_num)) (by norm_num)
    · exact hq
    · exact hq

/-- Claim C9 — risk assessment postconditions: the score is an integer
between 0 and 100, `requiresAlert` holds exactly when the level is
critical or high, equivalently exactly when the score is at least 45 or
a critical-severity flag was produced, and the level is critical exactly
when the score is at least 70 or a critical-severity flag is present. -/
theorem c9_risk_postconditions (rd : RiskDataOpt) (hist : Option StoredRiskHistory) :
    (0 ≤ (calculateRisk rd hist).score ∧ (calculateRisk rd hist).score ≤ 100) ∧
    ((calculateRisk rd hist).requiresAlert = true ↔
      ((calculateRisk rd hist).level = RiskLevel.critical ∨
       (calculateRisk rd hist).level = RiskLevel.high)) ∧
    ((calculateRisk rd hist).requiresAlert = true ↔
      (45 ≤ (calculateRisk rd hist).score ∨
       ∃ f ∈ (calculateRisk rd hist).flags, f.severity = FlagSeverity.critical)) ∧
    ((calculateRisk rd hist).level = RiskLevel.critical ↔
      (70 ≤ (calculateRisk rd hist).score ∨
       ∃ f ∈ (calculateRisk rd hist).flags, f.severity = FlagSeverity.critical)) := by
  have hq : 0 ≤ applyGestation rd (applyHistory hist (rulesScoreFlags rd).1) :=
    applyGestation_nonneg rd _ (applyHistory_nonneg hist _ (rulesScoreFlags_nonneg rd))
  have hfloor : (0 : ℤ) ≤ jsRound (applyGestation rd (applyHistory hist (rulesScoreFlags rd).1)) := by
    refine Int.le_floor.mpr ?_
    push_cast
    linarith
  have hs0 : (0 : ℤ) ≤
      min (jsRound (applyGestation rd (applyHistory hist (rulesScoreFlags rd).1))) 100 :=
    le_min hfloor (by norm_num)
  have hs100 :
      min (jsRound (applyGestation rd (applyHistory hist (rulesScoreFlags rd).1))) 100 ≤ 100 :=
    min_le_right _ _
  have hcrit : (((rulesScoreFlags rd).2.any fun f => f.severity == FlagSeverity.critical) = true)
      ↔ ∃ f ∈ (rulesScoreFlags rd).2, f.severity = FlagSeverity.critical := by
    simp [List.any_eq_true]
  simp only [calculateRisk]
  split_ifs with h1 h2 h3
  · refine ⟨⟨hs0, hs100⟩, iff_of_true rfl (Or.inl rfl), ?_, ?_⟩
    · exact iff_of_true rfl
        (h1.elim (fun h => Or.inl (le_trans (by norm_num : (45:ℤ) ≤ 70) h)) fun h => Or.inr (hcrit.mp h))
    · exact iff_of_true rfl (h1.elim Or.inl fun h => Or.inr (hcrit.mp h))
  · obtain ⟨h70, hcF⟩ := not_or.mp h1
    refine ⟨⟨hs0, hs100⟩, iff_of_true rfl (Or.inr rfl), iff_of_true rfl (Or.inl h2), ?_⟩
    exact iff_of_false (by decide) (by rintro (h | h); exact h70 h; exact hcF (hcrit.mpr h))
  · obtain ⟨h70, hcF⟩ := not_or.mp h1
    refine ⟨⟨hs0, hs100⟩, ?_, ?_, ?_⟩
    · exact iff_of_false (by decide) (by rintro (h | h) <;> exact absurd h (by decide))
    · exact iff_of_false (by decide) (by rintro (h | h); exact h2 h; exact hcF (hcrit.mpr h))
    · exact iff_of_false (by decide) (by rintro (h | h); exact h70 h; exact hcF (hcrit.mpr h))
  · obtain ⟨h70, hcF⟩ := not_or.mp h1
    refine ⟨⟨hs0, hs100⟩, ?_, ?_, ?_⟩
    · exact iff_of_false (by decide) (by rintro (h | h) <;> exact absurd h (by decide))
    · exact iff_of_false (by decide) (by rintro (h | h); exact h2 h; exact hcF (hcrit.mpr h))
    · exact iff_of_false (by decide) (by rintro (h | h); exact h70 h; exact hcF (hcrit.mpr h))

theorem scheduleAudioPlayback_spec (st : Sched) (ct d : ℚ) (h0 : st.nextPlayTime ≠ 0) :
    st.nextPlayTime ≤ (scheduleAudioPlayback st ct d).2 ∧
    ((scheduleAudioPlayback st ct d).2 = st.nextPlayTime ∨
      (st.nextPlayTime < ct ∧ (scheduleAudioPlayback st ct d).2 = ct + BUFFER_LOOKAHEAD)) ∧
    (scheduleAudioPlayback st ct d).1.nextPlayTime = (scheduleAudioPlayback st ct d).2 + d := by
  simp only [scheduleAudioPlayback, if_neg h0]
  by_cases hlt : st.nextPlayTime < ct
  · simp only [if_pos hlt]
    have hL : (0 : ℚ) ≤ BUFFER_LOOKAHEAD := by norm_num [BUFFER_LOOKAHEAD]
    refine ⟨by linarith, Or.inr ⟨hlt, by simp⟩, by simp⟩
  · simp only [if_neg hlt]
    exact ⟨le_refl _, Or.inl (by simp), by simp⟩

theorem runSched_spec (fs : List (ℚ × ℚ)) (st : Sched)
    (hpos : 0 < st.nextPlayTime)
    (hfs : ∀ p ∈ fs, 0 ≤ p.1 ∧ 0 ≤ p.2) :
    StartsSpec st.nextPlayTime fs (runSched st fs).2 (runSched st fs).1.nextPlayTime := by
  induction fs generalizing st with
  | nil => exact ⟨rfl, rfl⟩
  | cons f fs ih =>
    obtain ⟨hct, hd⟩ := hfs f (List.mem_cons_self f fs)
    have hne : st.nextPlayTime ≠ 0 := ne_of_gt hpos
    obtain ⟨hle, hdisj, hadv⟩ := scheduleAudioPlayback_spec st f.1 f.2 hne
    have hpos' : 0 < (scheduleAudioPlayback st f.1 f.2).1.nextPlayTime := by
      rw [hadv]; linarith
    have ihs := ih (scheduleAudioPlayback st f.1 f.2).1 hpos'
      (fun p hp => hfs p (List.mem_cons_of_mem f hp))
    rw [hadv] at ihs
    exact ⟨(scheduleAudioPlayback st f.1 f.2).2,
      (runSched (scheduleAudioPlayback st f.1 f.2).1 fs).2, rfl, hle, hdisj, ihs⟩

/-- Claim C2 — gapless in-order playback: running the scheduler over a
sequence of frames (each with a non-negative clock reading and duration)
schedules them in arrival order; the first start is
`currentTime + BUFFER_LOOKAHEAD`, and from then on `StartsSpec` holds:
every start is at or after the previous end, the only gap is a
resynchronisation to `currentTime + BUFFER_LOOKAHEAD` when the cursor
fell behind the clock, and after each enqueue the cursor is exactly that
start plus the frame's duration. -/
theorem c2_gapless_schedule (ct d : ℚ) (fs : List (ℚ × ℚ))
    (hct : 0 ≤ ct) (hd : 0 ≤ d)
    (hfs : ∀ p ∈ fs, 0 ≤ p.1 ∧ 0 ≤ p.2) :
    (runSched initSched ((ct, d) :: fs)).2
        = (ct + BUFFER_LOOKAHEAD) :: ((runSched initSched ((ct, d) :: fs)).2.tail) ∧
    StartsSpec (ct + BUFFER_LOOKAHEAD + d) fs
      ((runSched initSched ((ct, d) :: fs)).2.tail)
      ((runSched initSched ((ct, d) :: fs)).1.nextPlayTime) := by
  have hL : (0 : ℚ) < BUFFER_LOOKAHEAD := by norm_num [BUFFER_LOOKAHEAD]
  have hstep : scheduleAudioPlayback initSched ct d
      = ({ nextPlayTime := ct + BUFFER_LOOKAHEAD + d, scheduled := [0], nextId := 1,
           stopped := [] }, ct + BUFFER_LOOKAHEAD) := by
    have h1 : ¬ (ct + BUFFER_LOOKAHEAD < ct) := by linarith
    simp [scheduleAudioPlayback, initSched, h1]
  have h2 : (scheduleAudioPlayback initSched ct d).2 = ct + BUFFER_LOOKAHEAD := by
    rw [hstep]
  have hnpt : (scheduleAudioPlayback initSched ct d).1.nextPlayTime
      = ct + BUFFER_LOOKAHEAD + d := by rw [hstep]
  have hpos : 0 < (scheduleAudioPlayback initSched ct d).1.nextPlayTime := by
    rw [hnpt]; linarith
  have hspec := runSched_spec fs (scheduleAudioPlayback initSched ct d).1 hpos hfs
  rw [hnpt] at hspec
  constructor
  · show (scheduleAudioPlayback initSched ct d).2 ::
        (runSched (scheduleAudioPlayback initSched ct d).1 fs).2
      = (ct + BUFFER_LOOKAHEAD) ::
        (runSched (scheduleAudioPlayback initSched ct d).1 fs).2
    rw [h2]
  · show StartsSpec (ct + BUFFER_LOOKAHEAD + d) fs
        (runSched (scheduleAudioPlayback initSched ct d).1 fs).2
        (runSched (scheduleAudioPlayback initSched ct d).1 fs).1.nextPlayTime
    exact hspec

/-- Witness for C2 at a concrete one-frame trace. -/
theorem c2_gapless_schedule_witness :
    (runSched initSched [((0 : ℚ), (1 : ℚ))]).2
        = ((0 : ℚ) + BUFFER_LOOKAHEAD) :: ((runSched initSched [((0 : ℚ), (1 : ℚ))]).2.tail) ∧
    StartsSpec ((0 : ℚ) + BUFFER_LOOKAHEAD + 1) []
      ((runSched initSched [((0 : ℚ), (1 : ℚ))]).2.tail)
      ((runSched initSched [((0 : ℚ), (1 : ℚ))]).1.nextPlayTime) :=
  c2_gapless_schedule 0 1 [] (le_refl 0) (by norm_num) (by simp)

/-- Claim C5 — interrupt clears the playback backlog: the `interrupted`
event stops every scheduled source (all ids move to `stopped`), empties
the scheduled queue, resets the timeline cursor to zero, and the next
enqueue starts a fresh timeline at `currentTime + BUFFER_LOOKAHEAD`,
advancing the cursor by exactly that frame's duration. -/
theorem c5_interrupt_clears (st : ClientState) (ct d : ℚ) :
    (handleEvent st SockEvent.interrupted).audio.scheduled = [] ∧
    (handleEvent st SockEvent.interrupted).audio.stopped
        = st.audio.stopped ++ st.audio.scheduled ∧
    (handleEvent st SockEvent.interrupted).audio.nextPlayTime = 0 ∧
    (scheduleAudioPlayback (handleEvent st SockEvent.interrupted).audio ct d).2
        = ct + BUFFER_LOOKAHEAD ∧
    (scheduleAudioPlayback (handleEvent st SockEvent.interrupted).audio ct d).1.nextPlayTime
        = ct + BUFFER_LOOKAHEAD + d := by
  have hL : (0 : ℚ) < BUFFER_LOOKAHEAD := by norm_num [BUFFER_LOOKAHEAD]
  have h1 : ¬ (ct + BUFFER_LOOKAHEAD < ct) := by linarith
  refine ⟨rfl, rfl, rfl, ?_, ?_⟩ <;>
    simp [handleEvent, stopAllAudio, scheduleAudioPlayback, h1]

/-- Counterexample to claim C3: after `connect()` arms the timer and the
20-second timeout fires, the promise resolves `false` and the status is
`error`, yet the socket still exists and was never closed — the channel
is left half-open, contradicting the claim that no resource remains
open. -/
theorem c3_timeout_counterexample :
    (handleEvent (connectInit initClientState) SockEvent.timeoutFire).resolved = some false ∧
    (handleEvent (connectInit initClientState) SockEvent.timeoutFire).status
        = LiveSessionStatus.error ∧
    channelOpen (handleEvent (connectInit initClientState) SockEvent.timeoutFire) :=
  ⟨rfl, rfl, rfl, rfl⟩

/-- Claim C3 as amended: a pending timeout firing resolves `connect()` as
failed and moves the status to Error, but it does not touch the socket —
the channel keeps whatever open state it had, and only `disconnect()`
drops it. -/
theorem c3_amended_timeout (st : ClientState) (h : st.timeoutPending = true) :
    (handleEvent st SockEvent.timeoutFire).status = LiveSessionStatus.error ∧
    (st.resolved = none →
      (handleEvent st SockEvent.timeoutFire).resolved = some false) ∧
    (handleEvent st SockEvent.timeoutFire).socketExists = st.socketExists ∧
    (handleEvent st SockEvent.timeoutFire).socketClosed = st.socketClosed ∧
    (disconnect (handleEvent st SockEvent.timeoutFire)).socketExists = false := by
  refine ⟨?_, ?_, ?_, ?_, ?_⟩
  · simp [handleEvent, h, resolveWith, setStatus]
  · intro hr; simp [handleEvent, h, resolveWith, setStatus, hr]
  · simp [handleEvent, h, resolveWith, setStatus]
  · simp [handleEvent, h, resolveWith, setStatus]
  · simp [handleEvent, h, resolveWith, setStatus, disconnect]

/-- Witness for the amended C3 at the concrete freshly-connecting state. -/
theorem c3_amended_timeout_witness :
    (handleEvent (connectInit initClientState) SockEvent.timeoutFire).status
        = LiveSessionStatus.error ∧
    (handleEvent (connectInit initClientState) SockEvent.timeoutFire).resolved = some false ∧
    (handleEvent (connectInit initClientState) SockEvent.timeoutFire).socketExists
        = (connectInit initClientState).socketExists ∧
    (disconnect (handleEvent (connectInit initClientState) SockEvent.timeoutFire)).socketExists
        = false := by
  obtain ⟨h1, h2, h3, _, h5⟩ := c3_amended_timeout (connectInit initClientState) rfl
  exact ⟨h1, h2 rfl, h3, h5⟩

/-- Counterexample to claim C6: `disconnect()` always runs
`setStatus('disconnected')`, so the first call already fires a
status-change callback and the second call fires a duplicate one —
contradicting the claim that `disconnect()` never triggers status-change
callbacks and that a repeated call produces no duplicates. -/
theorem c6_teardown_counterexample :
    (disconnect (connectInit initClientState)).statusCbs
        = [LiveSessionStatus.connecting, LiveSessionStatus.disconnected] ∧
    (disconnect (disconnect (connectInit initClientState))).statusCbs
        = [LiveSessionStatus.connecting, LiveSessionStatus.disconnected,
           LiveSessionStatus.disconnected] :=
  ⟨rfl, rfl⟩

/-- Claim C6 as amended: a second `disconnect()` throws nothing and
changes nothing except re-emitting one more `disconnected` status
callback (each call emits exactly one); the capturer's `stop()` is
idempotent and error-free. -/
theorem c6_amended_teardown (st : ClientState) (c : PCMCapturer) :
    (disconnect st).statusCbs = st.statusCbs ++ [LiveSessionStatus.disconnected] ∧
    disconnect (disconnect st) = setStatus LiveSessionStatus.disconnected (disconnect st) ∧
    PCMCapturer.stop (PCMCapturer.stop c) = PCMCapturer.stop c := by
  refine ⟨rfl, ?_, rfl⟩
  simp [disconnect, setStatus, stopAllAudio]

/-- Counterexample to claim C8: a ready `status` message arriving after
the timeout has already pushed the session to Error moves the same
instance back to Connected — `Error` is not terminal, contradicting the
claimed monotone status machine. -/
theorem c8_terminal_counterexample :
    (handleEvent (handleEvent (connectInit initClientState) SockEvent.timeoutFire)
        (SockEvent.statusMsg false true)).statusCbs
      = [LiveSessionStatus.connecting, LiveSessionStatus.error,
         LiveSessionStatus.connected] ∧
    (handleEvent (handleEvent (connectInit initClientState) SockEvent.timeoutFire)
        (SockEvent.statusMsg false true)).status = LiveSessionStatus.connected :=
  ⟨rfl, rfl⟩

/-- Claim C8 as amended: the handlers apply transitions with no
terminal-state guard — a ready status message sets Connected from every
state (Error and Disconnected included), and `connect()` re-enters
Connecting from every state; terminality of Error/Disconnected is not
enforced by the session instance itself. -/
theorem c8_amended_status (st : ClientState) :
    (handleEvent st (SockEvent.statusMsg false true)).status = LiveSessionStatus.connected ∧
    (connectInit st).status = LiveSessionStatus.connecting := by
  constructor
  · simp [handleEvent, resolveWith, setStatus]
  · simp [connectInit, setStatus]

theorem runWs_setup_count (events : List WsEvent) (st : WsState) :
    (runWs st events).setupMsgsSent = st.setupMsgsSent + events.count WsEvent.openEv := by
  induction events generalizing st with
  | nil => simp [runWs]
  | cons e es ih =>
    have hstep : runWs st (e :: es) = runWs (handleWs st e) es := rfl
    rw [hstep, ih]
    cases e with
    | openEv => simp [handleWs, List.count_cons]; omega
    | msgSetupComplete =>
      by_cases hs : st.setupSent <;> simp [handleWs, hs, List.count_cons]
    | msgOther => simp [handleWs, List.count_cons]

/-- Claim C4 — one-shot session configuration: over any event trace in
which the WebSocket `onopen` fires at most once (the browser guarantee),
the setup message is sent at most once, and a `setupComplete` (ready)
message never sends it — so duplicated ready signals cannot resend the
SessionConfig. -/
theorem c4_one_shot_setup (events : List WsEvent)
    (h : events.count WsEvent.openEv ≤ 1) :
    (runWs initWsState events).setupMsgsSent ≤ 1 ∧
    ∀ st : WsState, (handleWs st WsEvent.msgSetupComplete).setupMsgsSent
        = st.setupMsgsSent := by
  constructor
  · rw [runWs_setup_count]
    simpa [initWsState] using h
  · intro st
    by_cases hs : st.setupSent <;> simp [handleWs, hs]

/-- Witness for C4: one open followed by two duplicate ready messages
still sends the setup only once. -/
theorem c4_one_shot_setup_witness :
    (runWs initWsState
        [WsEvent.openEv, WsEvent.msgSetupComplete, WsEvent.msgSetupComplete]).setupMsgsSent
      ≤ 1 :=
  (c4_one_shot_setup [WsEvent.openEv, WsEvent.msgSetupComplete, WsEvent.msgSetupComplete]
    (by decide)).1

/-- Claim C7 — bounded credential retry with fixed backoff: the bridge
makes at most three token attempts with 1000 ms sleeps between
consecutive failed attempts (so at most two sleeps); if any of the three
attempts succeeds the upstream session is established with no error
emitted to the client, and only when all three fail does the connection
attempt fail with an error status. -/
theorem c7_credential_retry (outcomes : Nat → Bool) :
    (bridgeConnect outcomes true).attempts ≤ 3 ∧
    (bridgeConnect outcomes true).sleepsMs.length ≤ 2 ∧
    (∀ ms ∈ (bridgeConnect outcomes true).sleepsMs, ms = 1000) ∧
    ((outcomes 0 || outcomes 1 || outcomes 2) = true →
      (bridgeConnect outcomes true).sessionEstablished = true ∧
      (bridgeConnect outcomes true).errorEmitted = false) ∧
    ((outcomes 0 || outcomes 1 || outcomes 2) = false →
      (bridgeConnect outcomes true).sessionEstablished = false ∧
      (bridgeConnect outcomes true).errorEmitted = true) := by
  cases h0 : outcomes 0 <;> cases h1 : outcomes 1 <;> cases h2 : outcomes 2 <;>
    simp [bridgeConnect, tokenRetry, h0, h1, h2]

/-- Witness for C7 at the Scenario D outcome: two failures then success
on the third attempt still establishes the session with no visible
error. -/
theorem c7_credential_retry_witness :
    (bridgeConnect (fun n => n == 2) true).sessionEstablished = true ∧
    (bridgeConnect (fun n => n == 2) true).errorEmitted = false ∧
    (bridgeConnect (fun n => n == 2) true).attempts ≤ 3 :=
  ⟨((c7_credential_retry (fun n => n == 2)).2.2.2.1 (by decide)).1,
   ((c7_credential_retry (fun n => n == 2)).2.2.2.1 (by decide)).2,
   (c7_credential_retry (fun n => n == 2)).1⟩

theorem dropLead?_sound {p s t : List Char} (h : dropLead? p s = some t) : s = p ++ t := by
  induction p generalizing s with
  | nil => simpa [dropLead?] using h
  | cons a ps ih =>
    cases s with
    | nil => simp [dropLead?] at h
    | cons c cs =>
      by_cases hac : a = c
      · subst hac
        simp only [dropLead?, if_pos rfl] at h
        simpa using ih h
      · simp [dropLead?, hac] at h

theorem dropLead?_complete (p t : List Char) : dropLead? p (p ++ t) = some t := by
  induction p with
  | nil => rfl
  | cons a ps ih => simp [dropLead?, ih]

theorem splitAtRBrace?_sound {s a b : List Char} (h : splitAtRBrace? s = some (a, b)) :
    s = a ++ rbrace :: b ∧ rbrace ∉ a := by
  induction s generalizing a b with
  | nil => simp [splitAtRBrace?] at h
  | cons c cs ih =>
    by_cases hc : c = rbrace
    · subst hc
      simp only [splitAtRBrace?, if_pos rfl, Option.some.injEq, Prod.mk.injEq] at h
      obtain ⟨rfl, rfl⟩ := h
      simp
    · simp only [splitAtRBrace?, if_neg hc] at h
      cases hsp : splitAtRBrace? cs with
      | none => rw [hsp] at h; simp at h
      | some ab =>
        obtain ⟨a', b'⟩ := ab
        rw [hsp] at h
        simp only [Option.some.injEq, Prod.mk.injEq] at h
        obtain ⟨rfl, rfl⟩ := h
        obtain ⟨h1, h2⟩ := ih hsp
        refine ⟨by simp [h1], ?_⟩
        intro hmem
        rcases List.mem_cons.mp hmem with hh | hh
        · exact hc hh.symm
        · exact h2 hh

theorem splitAtRBrace?_complete (content rest : List Char) (h : rbrace ∉ content) :
    splitAtRBrace? (content ++ rbrace :: rest) = some (content, rest) := by
  induction content with
  | nil => simp [splitAtRBrace?]
  | cons c cs ih =>
    have hc : ¬ (c = rbrace) := fun hh => h (by simp [hh])
    have ihx := ih fun hm => h (List.mem_cons_of_mem c hm)
    simp [splitAtRBrace?, hc, ihx]

theorem tagMatchAt_sound {s : List Char} {br : List Char × List Char}
    (h : tagMatchAt s = some br) :
    s = mkTag br.1 ++ br.2 ∧ IsTagBody br.1 := by
  unfold tagMatchAt at h
  cases hdl : dropLead? tagOpen s with
  | none => rw [hdl] at h; simp at h
  | some t =>
    rw [hdl] at h
    simp only [Option.some_bind] at h
    cases t with
    | nil => simp [tagAfterOpen] at h
    | cons c cs =>
      simp only [tagAfterOpen] at h
      by_cases hc : c = lbrace
      · subst hc
        rw [if_pos rfl] at h
        cases hsp : splitAtRBrace? cs with
        | none => rw [hsp] at h; simp at h
        | some ab =>
          obtain ⟨content, rest0⟩ := ab
          rw [hsp] at h
          simp only [Option.some_bind] at h
          by_cases hce : content = []
          · simp [hce] at h
          · rw [if_neg hce] at h
            cases rest0 with
            | nil => simp [tagClose] at h
            | cons r rs =>
              simp only [tagClose] at h
              by_cases hr : r = ']'
              · subst hr
                rw [if_pos rfl, Option.some.injEq] at h
                subst h
                obtain ⟨hcs, hmem⟩ := splitAtRBrace?_sound hsp
                constructor
                · rw [dropLead?_sound hdl, hcs]
                  simp [mkTag]
                · exact ⟨content, rfl, hce, hmem⟩
              · rw [if_neg hr] at h; simp at h
      · rw [if_neg hc] at h; simp at h

theorem tagMatchAt_complete {body : List Char} (hb : IsTagBody body) (rest : List Char) :
    tagMatchAt (mkTag body ++ rest) = some (body, rest) := by
  obtain ⟨content, rfl, hne, hmem⟩ := hb
  have hs : mkTag (lbrace :: content ++ [rbrace]) ++ rest
      = tagOpen ++ (lbrace :: (content ++ rbrace :: ']' :: rest)) := by
    simp [mkTag]
  unfold tagMatchAt
  rw [hs, dropLead?_complete]
  simp only [Option.some_bind, tagAfterOpen, if_pos rfl,
    splitAtRBrace?_complete content (']' :: rest) hmem]
  simp [tagClose, hne]

theorem matchFirst_sound {s body : List Char} (h : matchFirst s = some body) :
    ∃ pre post, IsTagBody body ∧ s = pre ++ mkTag body ++ post := by
  induction s with
  | nil => simp [matchFirst] at h
  | cons c cs ih =>
    cases hm : tagMatchAt (c :: cs) with
    | some br =>
      obtain ⟨b, r⟩ := br
      rw [show matchFirst (c :: cs) = (match tagMatchAt (c :: cs) with
          | some (b, _) => some b
          | none => matchFirst cs) from rfl, hm] at h
      simp only [Option.some.injEq] at h
      subst h
      obtain ⟨hsplit, hb⟩ := tagMatchAt_sound hm
      exact ⟨[], r, hb, by simpa using hsplit⟩
    | none =>
      rw [show matchFirst (c :: cs) = (match tagMatchAt (c :: cs) with
          | some (b, _) => some b
          | none => matchFirst cs) from rfl, hm] at h
      obtain ⟨pre, post, hb, hcs⟩ := ih h
      exact ⟨c :: pre, post, hb, by simp [hcs]⟩

theorem matchFirst_eq_none (s : List Char) (h : ¬ HasTag s) : matchFirst s = none := by
  cases hm : matchFirst s with
  | none => rfl
  | some b =>
    obtain ⟨pre, post, hb, hs⟩ := matchFirst_sound hm
    exact absurd ⟨pre, b, post, hb, hs⟩ h

theorem matchFirst_first : ∀ pre s body post : List Char, IsTagBody body →
    s = pre ++ mkTag body ++ post →
    (∀ pre₂ body₂ post₂, IsTagBody body₂ → s = pre₂ ++ mkTag body₂ ++ post₂ →
        pre.length ≤ pre₂.length) →
    matchFirst s = some body := by
  intro pre
  induction pre with
  | nil =>
    intro s body post hb hs _
    subst hs
    simp only [List.nil_append]
    cases hcase : mkTag body ++ post with
    | nil =>
      exfalso
      obtain ⟨h1, _⟩ := List.append_eq_nil.mp hcase
      have h2 : tagOpen = [] := by
        have h3 : tagOpen ++ (body ++ [']']) = [] := by
          simpa [mkTag, List.append_assoc] using h1
        exact (List.append_eq_nil.mp h3).1
      exact absurd h2 (by decide)
    | cons c cs =>
      have hm : tagMatchAt (c :: cs) = some (body, post) := by
        rw [← hcase]; exact tagMatchAt_complete hb post
      rw [show matchFirst (c :: cs) = (match tagMatchAt (c :: cs) with
          | some (b, _) => some b
          | none => matchFirst cs) from rfl, hm]
  | cons a pre' ih =>
    intro s body post hb hs hmin
    subst hs
    simp only [List.cons_append]
    cases hm : tagMatchAt (a :: (pre' ++ mkTag body ++ post)) with
    | some br =>
      exfalso
      obtain ⟨b2, r2⟩ := br
      obtain ⟨hsplit, hb2⟩ := tagMatchAt_sound hm
      have hlen := hmin [] b2 r2 hb2 (by
        simp only [List.nil_append, List.cons_append]
        exact hsplit)
      simp at hlen
    | none =>
      rw [show matchFirst (a :: (pre' ++ mkTag body ++ post))
          = (match tagMatchAt (a :: (pre' ++ mkTag body ++ post)) with
            | some (b, _) => some b
            | none => matchFirst (pre' ++ mkTag body ++ post)) from rfl, hm]
      refine ih _ body post hb rfl ?_
      intro pre₂ b₂ p₂ hb₂ he
      have := hmin (a :: pre₂) b₂ p₂ hb₂ (by simp [he])
      simpa using this

/-- Claim C1 as amended: when the input's leftmost capture-regex block
parses, extraction returns the parsed record together with the text
produced by the cleaning pass (deletion of every maximal
`[RISK_DATA:` + non-`]` run + `]` segment, then trim); an input with no
capture-regex block is returned verbatim with a null record; a malformed
leftmost block gives the same cleaning with a null record; extraction is
a total function and never throws. -/
theorem c1_amended_extract (s : List Char) :
    (∀ pre body post r, FirstTag s pre body post → parseJsonObject body = some r →
        extractRiskData s = (trimChars (removeTags s), some r)) ∧
    (¬ HasTag s → extractRiskData s = (s, none)) ∧
    (∀ pre body post, FirstTag s pre body post → parseJsonObject body = none →
        extractRiskData s = (trimChars (removeTags s), none)) := by
  refine ⟨?_, ?_, ?_⟩
  · intro pre body post r hf hp
    have hm := matchFirst_first pre s body post hf.1 hf.2.1 hf.2.2
    simp [extractRiskData, hm, hp]
  · intro hn
    simp [extractRiskData, matchFirst_eq_none s hn]
  · intro pre body post hf hp
    have hm := matchFirst_first pre s body post hf.1 hf.2.1 hf.2.2
    simp [extractRiskData, hm, hp]

/-- Witness for the amended C1: a lone parseable tag extracts to the
empty cleaned text and the embedded record. -/
theorem c1_amended_extract_witness :
    extractRiskData (mkTag c1Body) = ([], some [("h".toList, 1)]) := by
  have hfirst : FirstTag (mkTag c1Body) [] c1Body [] :=
    ⟨⟨"\"h\":1".toList, rfl, by decide, by decide⟩, by simp,
     fun pre₂ b₂ p₂ _ _ => Nat.zero_le _⟩
  have hp : parseJsonObject c1Body = some [("h".toList, 1)] := by decide
  have h := (c1_amended_extract (mkTag c1Body)).1 [] c1Body [] [("h".toList, 1)] hfirst hp
  rw [h]
  decide

/-- Counterexample to claim C1: `c1Ex` contains exactly one delimited
block `[RISK_DATA:\x7b...\x7d]` (exhibited by the final conjunct), so the
claim predicts the cleaned text `a[RISK_DATA:hello]bc` — the input with
that block removed, trimmed.  The code instead also strips the
brace-less pseudo-tag `[RISK_DATA:hello]`, because the removal regex
`\[RISK_DATA:[^\]]+\]` differs from the capture regex, returning `abc`. -/
theorem c1_extract_counterexample :
    (extractRiskData c1Ex).1 = "abc".toList ∧
    (extractRiskData c1Ex).1 ≠ "a[RISK_DATA:hello]bc".toList ∧
    (extractRiskData c1Ex).2 = some [("h".toList, 1)] ∧
    c1Ex = "a[RISK_DATA:hello]b".toList ++ mkTag c1Body ++ "c".toList :=
  ⟨by decide, by decide, by decide, rfl⟩

end Mimi
